import Mathlib

/-!
Verification development for the anonymous police-complaint portal
(`app/complaint_service.py`, `app/models.py`).

The service layer is embedded shallowly: the relational store is a list of
rows, the on-disk upload directory is a list of `(path, bytes)` pairs, the
random source behind `uuid.uuid4()` is an explicit stream of 128-bit
naturals, and the two infrastructure faults that the service reacts to
(attachment-row insert failure, file-unlink failure) are explicit boolean
oracles.  Timestamps are naturals (`datetime.utcnow()` becomes a `now`
argument).  Fallible operations return `Option` or `Except`.
-/

/-! ## Data model (`app/models.py`) -/

/-- Enum `ComplaintStatus` of `models.py`. -/
inductive ComplaintStatus where
  | pending
  | under_review
  | resolved
  | dismissed
deriving DecidableEq, Repr

/-- Enum `ComplaintCategory` of `models.py`, in declaration order
(the order Python iterates the enum in). -/
inductive ComplaintCategory where
  | excessive_force
  | misconduct
  | discrimination
  | corruption
  | harassment
  | abuse_of_power
  | other
deriving DecidableEq, Repr

/-- The `.value` string of each `ComplaintCategory` member. -/
def ComplaintCategory.value : ComplaintCategory → String
  | .excessive_force => "excessive_force"
  | .misconduct => "misconduct"
  | .discrimination => "discrimination"
  | .corruption => "corruption"
  | .harassment => "harassment"
  | .abuse_of_power => "abuse_of_power"
  | .other => "other"

/-- The members of `ComplaintCategory` in Python iteration order. -/
def ComplaintCategory.all : List ComplaintCategory :=
  [.excessive_force, .misconduct, .discrimination, .corruption,
   .harassment, .abuse_of_power, .other]

/-- Enum `ComplaintUrgency` of `models.py`. -/
inductive ComplaintUrgency where
  | low
  | medium
  | high
  | critical
deriving DecidableEq, Repr

/-- Enum `MediaType` of `models.py`. -/
inductive MediaType where
  | image
  | video
  | audio
  | document
deriving DecidableEq, Repr

/-- Table row `Complaint` of `models.py`.  The store-assigned primary key is
a `Nat`; `datetime` fields are `Nat` instants.  The never-read free-form
JSON metadata map (`additional_metadata`, constant `{}` in every reachable
path) is not carried. -/
structure Complaint where
  id : Nat
  tracking_id : String
  title : String
  description : String
  category : ComplaintCategory
  urgency : ComplaintUrgency
  incident_date : Option Nat
  incident_location : Option String
  officer_badge_number : Option String
  officer_name : Option String
  contact_email : Option String
  contact_phone : Option String
  status : ComplaintStatus
  created_at : Nat
  updated_at : Nat
  submitted_ip : Option String
deriving DecidableEq, Repr

/-- Table row `MediaAttachment` of `models.py`. -/
structure MediaAttachment where
  id : Nat
  filename : String
  original_filename : String
  file_path : String
  file_size : Nat
  mime_type : String
  media_type : MediaType
  file_hash : String
  uploaded_at : Nat
  is_processed : Bool
  complaint_id : Nat
deriving DecidableEq, Repr

/-- Request schema `ComplaintCreate` of `models.py` (length validation is
the caller side, out of this model). -/
structure ComplaintCreate where
  title : String
  description : String
  category : ComplaintCategory
  urgency : ComplaintUrgency
  incident_date : Option Nat
  incident_location : Option String
  officer_badge_number : Option String
  officer_name : Option String
  contact_email : Option String
  contact_phone : Option String
deriving DecidableEq, Repr

/-- Public projection `ComplaintPublic` of `models.py`: exactly the six
fields below, nothing else — in particular no description, no contact
email or phone, no officer name or badge number, no submitted address. -/
structure ComplaintPublic where
  tracking_id : String
  title : String
  category : ComplaintCategory
  status : ComplaintStatus
  created_at : Nat
  updated_at : Nat
deriving DecidableEq, Repr

/-! ## Tracking-code generation (`ComplaintService._generate_tracking_id`) -/

/-- One lowercase hexadecimal digit, as Python `"%x"` formatting renders
it; only ever applied to values `< 16`. -/
def hexChar (d : Nat) : Char :=
  "0123456789abcdef".toList.getD d 'x'

/-- The last `k` hexadecimal digits of `n`, most significant first — for
`k = 32` exactly Python `uuid.uuid4().hex` applied to the 128-bit value
`n`. -/
def hexDigits : Nat → Nat → List Char
  | 0, _ => []
  | k + 1, n => hexDigits k (n / 16) ++ [hexChar (n % 16)]

/-- `ComplaintService._generate_tracking_id`, with the 128-bit output of
`uuid.uuid4()` made an explicit argument `n`:
`"PC-" + uuid4().hex[:8].upper()`. -/
def generate_tracking_id (n : Nat) : String :=
  "PC-" ++ String.mk (((hexDigits 32 n).take 8).map Char.toUpper)

/-- The spec-side pattern for tracking codes, stated from the words of the
spec: the literal `PC-` followed by exactly 8 uppercase hexadecimal
characters. -/
def specTrackingCodeFormat (s : String) : Bool :=
  match s.toList with
  | 'P' :: 'C' :: '-' :: rest =>
      rest.length == 8 &&
        rest.all (fun c => "0123456789ABCDEF".toList.contains c)
  | _ => false

theorem hexDigits_length (k n : Nat) : (hexDigits k n).length = k := by
  induction k generalizing n with
  | zero => rfl
  | succ k ih => simp [hexDigits, ih]

theorem hexChar_toUpper_mem (d : Nat) (hd : d < 16) :
    "0123456789ABCDEF".toList.contains (Char.toUpper (hexChar d)) = true := by
  revert d; decide

theorem hexDigits_toUpper_mem (k n : Nat) (c : Char) (hc : c ∈ hexDigits k n) :
    "0123456789ABCDEF".toList.contains (Char.toUpper c) = true := by
  induction k generalizing n with
  | zero => simp [hexDigits] at hc
  | succ k ih =>
      simp only [hexDigits, List.mem_append, List.mem_singleton] at hc
      rcases hc with hc | hc
      · exact ih _ hc
      · subst hc
        exact hexChar_toUpper_mem _ (Nat.mod_lt _ (by decide))

/-- C4: every tracking code produced by `_generate_tracking_id` — whatever
128-bit value the random source yields — is the literal `PC-` followed by
exactly 8 uppercase hexadecimal characters. -/
theorem tracking_code_matches_format (n : Nat) :
    specTrackingCodeFormat (generate_tracking_id n) = true := by
  have hdata : (generate_tracking_id n).toList
      = 'P' :: 'C' :: '-' :: ((hexDigits 32 n).take 8).map Char.toUpper := by
    simp [generate_tracking_id, String.toList, String.data_append]
  unfold specTrackingCodeFormat
  rw [hdata]
  simp only [Bool.and_eq_true, beq_iff_eq, List.length_map, List.length_take,
    hexDigits_length, List.all_eq_true]
  refine ⟨rfl, ?_⟩
  intro c hc
  rcases List.mem_map.mp hc with ⟨d, hd, rfl⟩
  exact hexDigits_toUpper_mem 32 n d (List.mem_of_mem_take hd)

/-! ## Complaint creation (`ComplaintService.create_complaint`) -/

/-- The tracking-code uniqueness loop of `create_complaint` (lines 82-87):
draw a candidate from the random stream `gen`, re-draw while some stored
complaint already holds it.  The source loop is unbounded; here it is
bounded by `fuel` and answers `none` when the fuel runs out, which the
source can only mirror by diverging. -/
def chooseTrackingId (gen : Nat → Nat) (db : List Complaint) :
    Nat → Nat → Option String
  | 0, _ => none
  | fuel + 1, i =>
    let tid := generate_tracking_id (gen i)
    if (db.find? (fun c => decide (c.tracking_id = tid))).isSome then
      chooseTrackingId gen db fuel (i + 1)
    else
      some tid

/-- `ComplaintService.create_complaint`.  The store is the list `db` of
complaint rows; the store-assigned autoincrement key is modelled as
`db.length + 1`; both `datetime.utcnow()` calls become `now`.  Returns the
persisted complaint, its tracking code, and the store after the insert. -/
def create_complaint (gen : Nat → Nat) (fuel : Nat) (db : List Complaint)
    (complaint_data : ComplaintCreate) (client_ip : Option String) (now : Nat) :
    Option (Complaint × String × List Complaint) :=
  match chooseTrackingId gen db fuel 0 with
  | none => none
  | some tid =>
    let complaint : Complaint := {
      id := db.length + 1
      tracking_id := tid
      title := complaint_data.title
      description := complaint_data.description
      category := complaint_data.category
      urgency := complaint_data.urgency
      incident_date := complaint_data.incident_date
      incident_location := complaint_data.incident_location
      officer_badge_number := complaint_data.officer_badge_number
      officer_name := complaint_data.officer_name
      contact_email := complaint_data.contact_email
      contact_phone := complaint_data.contact_phone
      status := .pending
      created_at := now
      updated_at := now
      submitted_ip := client_ip }
    some (complaint, tid, db ++ [complaint])

theorem create_complaint_eq (gen : Nat → Nat) (fuel : Nat) (db : List Complaint)
    (complaint_data : ComplaintCreate) (client_ip : Option String) (now : Nat)
    (c : Complaint) (tid : String) (db' : List Complaint)
    (h : create_complaint gen fuel db complaint_data client_ip now = some (c, tid, db')) :
    chooseTrackingId gen db fuel 0 = some tid ∧
    c.tracking_id = tid ∧ c.status = .pending ∧
    c.created_at = now ∧ c.updated_at = now ∧ db' = db ++ [c] := by
  unfold create_complaint at h
  cases hx : chooseTrackingId gen db fuel 0 with
  | none => rw [hx] at h; exact absurd h (by simp)
  | some t =>
      rw [hx] at h
      simp only [Option.some.injEq, Prod.mk.injEq] at h
      obtain ⟨hc, rfl, rfl⟩ := h
      subst hc
      simp [hx]

theorem chooseTrackingId_fresh (gen : Nat → Nat) (db : List Complaint) :
    ∀ fuel i tid, chooseTrackingId gen db fuel i = some tid →
      ∀ c ∈ db, c.tracking_id ≠ tid := by
  intro fuel
  induction fuel with
  | zero => intro i tid h; exact absurd h (by simp [chooseTrackingId])
  | succ fuel ih =>
      intro i tid h
      simp only [chooseTrackingId] at h
      by_cases hx : (db.find?
          (fun c => decide (c.tracking_id = generate_tracking_id (gen i)))).isSome
      · rw [if_pos hx] at h
        exact ih _ _ h
      · rw [if_neg hx] at h
        obtain rfl := Option.some.inj h
        intro c hc hceq
        rw [Option.not_isSome_iff_eq_none, List.find?_eq_none] at hx
        exact hx c hc (by simpa using hceq)

/-- C3: every successful `create_complaint` persists a complaint with
status `pending` and both timestamps equal to the submission time, and
returns that persisted complaint together with its tracking code. -/
theorem create_complaint_pending_and_timestamps (gen : Nat → Nat) (fuel : Nat)
    (db : List Complaint) (complaint_data : ComplaintCreate)
    (client_ip : Option String) (now : Nat)
    (c : Complaint) (tid : String) (db' : List Complaint)
    (h : create_complaint gen fuel db complaint_data client_ip now = some (c, tid, db')) :
    c.status = .pending ∧ c.created_at = now ∧ c.updated_at = now ∧
    c.tracking_id = tid ∧ c ∈ db' := by
  obtain ⟨-, h1, h2, h3, h4, h5⟩ := create_complaint_eq _ _ _ _ _ _ _ _ _ h
  exact ⟨h2, h3, h4, h1, by simp [h5]⟩

/-- A concrete submission draft used by the concrete instantiations. -/
def sampleDraft : ComplaintCreate := {
  title := "Sample title"
  description := "Sample description text"
  category := .misconduct
  urgency := .medium
  incident_date := none
  incident_location := none
  officer_badge_number := none
  officer_name := none
  contact_email := none
  contact_phone := none }

/-- The complaint row that `create_complaint` produces from `sampleDraft`
on an empty store at time 0 with the all-zero random stream. -/
def sampleComplaint1 : Complaint := {
  id := 1
  tracking_id := "PC-00000000"
  title := "Sample title"
  description := "Sample description text"
  category := .misconduct
  urgency := .medium
  incident_date := none
  incident_location := none
  officer_badge_number := none
  officer_name := none
  contact_email := none
  contact_phone := none
  status := .pending
  created_at := 0
  updated_at := 0
  submitted_ip := none }

theorem create_complaint_pending_and_timestamps_witness :
    sampleComplaint1.status = .pending ∧ sampleComplaint1.created_at = 0 ∧
    sampleComplaint1.updated_at = 0 ∧
    sampleComplaint1.tracking_id = "PC-00000000" ∧
    sampleComplaint1 ∈ [sampleComplaint1] :=
  create_complaint_pending_and_timestamps (fun _ => 0) 1 [] sampleDraft none 0
    sampleComplaint1 "PC-00000000" [sampleComplaint1] (by decide)

/-- C5: the retry loop re-checks each candidate against the store, so two
successful creations run one after the other — whatever random streams,
fuels, drafts, addresses and clock values each saw — assign distinct
tracking codes: uniqueness of tracking codes is preserved by sequential
creation. -/
theorem create_complaint_sequential_tracking_codes_differ
    (g1 g2 : Nat → Nat) (f1 f2 : Nat) (db : List Complaint)
    (d1 d2 : ComplaintCreate) (ip1 ip2 : Option String) (n1 n2 : Nat)
    (c1 c2 : Complaint) (t1 t2 : String) (db1 db2 : List Complaint)
    (h1 : create_complaint g1 f1 db d1 ip1 n1 = some (c1, t1, db1))
    (h2 : create_complaint g2 f2 db1 d2 ip2 n2 = some (c2, t2, db2)) :
    t1 ≠ t2 := by
  obtain ⟨-, ht1, -, -, -, hdb1⟩ := create_complaint_eq _ _ _ _ _ _ _ _ _ h1
  obtain ⟨hchoose2, -, -, -, -, -⟩ := create_complaint_eq _ _ _ _ _ _ _ _ _ h2
  have hc1mem : c1 ∈ db1 := by simp [hdb1]
  have := chooseTrackingId_fresh g2 db1 f2 0 t2 hchoose2 c1 hc1mem
  rw [ht1] at this
  exact this

/-- The complaint row produced by a second creation on the store
`[sampleComplaint1]` at time 1 with the all-one random stream. -/
def sampleComplaint2 : Complaint := {
  id := 2
  tracking_id := "PC-00000001"
  title := "Sample title"
  description := "Sample description text"
  category := .misconduct
  urgency := .medium
  incident_date := none
  incident_location := none
  officer_badge_number := none
  officer_name := none
  contact_email := none
  contact_phone := none
  status := .pending
  created_at := 1
  updated_at := 1
  submitted_ip := none }

theorem create_complaint_sequential_tracking_codes_differ_witness :
    ("PC-00000000" : String) ≠ "PC-00000001" :=
  create_complaint_sequential_tracking_codes_differ
    (fun _ => 0) (fun _ => 16 ^ 24) 1 1 [] sampleDraft sampleDraft none none 0 1
    sampleComplaint1 sampleComplaint2 "PC-00000000" "PC-00000001"
    [sampleComplaint1] [sampleComplaint1, sampleComplaint2]
    (by decide) (by decide)

/-! ## Attachment intake (`ComplaintService.add_media_attachment`) -/

/-- `ComplaintService.MAX_FILE_SIZE`: 50 MB. -/
def MAX_FILE_SIZE : Nat := 50 * 1024 * 1024

/-- `ComplaintService.ALLOWED_MIME_TYPES`, bit-for-bit. -/
def ALLOWED_MIME_TYPES : List String :=
  ["image/jpeg", "image/png", "image/gif", "image/webp",
   "video/mp4", "video/webm", "video/quicktime",
   "audio/mpeg", "audio/wav", "audio/ogg",
   "application/pdf", "text/plain"]

/-- `ComplaintService._is_valid_file`.  File content is the list of its
bytes. -/
def is_valid_file (content : List Nat) (mime_type : String) : Bool :=
  if content.length = 0 ∨ content.length > MAX_FILE_SIZE then false
  else if mime_type ∉ ALLOWED_MIME_TYPES then false
  else true

/-- Python `str.startswith`, at the character-list level. -/
def strStartsWith (s p : String) : Bool :=
  p.toList.isPrefixOf s.toList

/-- `ComplaintService._determine_media_type`. -/
def determine_media_type (mime_type : String) : MediaType :=
  if strStartsWith mime_type "image/" then .image
  else if strStartsWith mime_type "video/" then .video
  else if strStartsWith mime_type "audio/" then .audio
  else .document

/-- Modelled from the spec: `hashlib.sha256(...).hexdigest()` is library
code not part of this repository; the spec requires only a hex-encoded
fixed-length digest that is a deterministic function of the file bytes.
Modelled as a 64-hex-character encoding of the byte string. -/
def calculate_file_hash (content : List Nat) : String :=
  String.mk (hexDigits 64 (content.foldl (fun acc b => acc * 256 + b % 256) 1))

/-- The path `ComplaintService._save_file` writes to:
`uploads/{complaint_id}/{uuid4().hex}_{filename}`, with the random token
an explicit argument `tok`. -/
def save_file_path (complaint_id : Nat) (filename : String) (tok : String) : String :=
  "uploads/" ++ toString complaint_id ++ "/" ++ tok ++ "_" ++ filename

/-- The observable state `add_media_attachment` acts on: the complaint
and attachment tables plus the upload directory as `(path, bytes)`
entries. -/
structure ServiceState where
  complaints : List Complaint
  attachments : List MediaAttachment
  files : List (String × List Nat)
deriving DecidableEq, Repr

/-- Observable steps of one `add_media_attachment` call, in order:
validation of content and MIME type, the store lookup of the complaint,
the file write, the row insert, and an attempted unlink of the written
file. -/
inductive Ev where
  | validated
  | lookedUp
  | wroteFile
  | insertedRow
  | unlinkTried
deriving DecidableEq, Repr

/-- The `MediaAttachment` row built on the accepting path of
`add_media_attachment` (lines 133-144). -/
def attachmentRecord (st : ServiceState) (complaint_id : Nat) (filename : String)
    (content : List Nat) (mime_type : String) (tok : String) (now : Nat) :
    MediaAttachment := {
  id := st.attachments.length + 1
  filename := tok ++ "_" ++ filename
  original_filename := filename
  file_path := save_file_path complaint_id filename tok
  file_size := content.length
  mime_type := mime_type
  media_type := determine_media_type mime_type
  file_hash := calculate_file_hash content
  uploaded_at := now
  is_processed := true
  complaint_id := complaint_id }

/-- `ComplaintService.add_media_attachment`.  `tok` is the `uuid4().hex`
used for the safe filename; `insertOk` is the infrastructure oracle for
the attachment-row insert (`session.add/commit`), `unlinkOk` for the
cleanup `file_path.unlink()`.  Returns the Python result (`Except.error`
is a raised exception, `Except.ok none` the `None` return), the state
after the call, and the trace of observable steps in execution order. -/
def add_media_attachment (st : ServiceState) (complaint_id : Nat)
    (filename : String) (content : List Nat) (mime_type : String)
    (tok : String) (insertOk : Bool) (unlinkOk : Bool) (now : Nat) :
    Except String (Option MediaAttachment) × ServiceState × List Ev :=
  if ¬ is_valid_file content mime_type then
    (.ok none, st, [.validated])
  else
    match st.complaints.find? (fun c => decide (c.id = complaint_id)) with
    | none => (.ok none, st, [.validated, .lookedUp])
    | some _ =>
      let file_path := save_file_path complaint_id filename tok
      let st1 : ServiceState := { st with files := st.files ++ [(file_path, content)] }
      let attachment := attachmentRecord st complaint_id filename content mime_type tok now
      if insertOk then
        (.ok (some attachment),
         { st1 with attachments := st1.attachments ++ [attachment] },
         [.validated, .lookedUp, .wroteFile, .insertedRow])
      else if unlinkOk then
        (.error "attachment row insert failed",
         { st1 with files := st1.files.filter (fun f => decide (f.1 ≠ file_path)) },
         [.validated, .lookedUp, .wroteFile, .unlinkTried])
      else
        (.error "attachment row insert failed", st1,
         [.validated, .lookedUp, .wroteFile, .unlinkTried])

theorem strStartsWith_false_of_other (s p q : String)
    (hlen : p.toList.length = q.toList.length)
    (hne : p.toList ≠ q.toList)
    (hp : strStartsWith s p = true) :
    strStartsWith s q = false := by
  by_contra hq
  rw [Bool.not_eq_false] at hq
  rw [strStartsWith, List.isPrefixOf_iff_prefix] at hp hq
  exact hne ((List.prefix_of_prefix_length_le hp hq (le_of_eq hlen)).eq_of_length hlen)

/-- C9: the stored media-type classification is a function of the declared
MIME-type prefix alone — `image/*` to image, `video/*` to video,
`audio/*` to audio, everything else (in particular `application/pdf` and
`text/plain`) to document. -/
theorem media_type_from_mime_family (mime_type : String) :
    (strStartsWith mime_type "image/" = true →
      determine_media_type mime_type = .image) ∧
    (strStartsWith mime_type "video/" = true →
      determine_media_type mime_type = .video) ∧
    (strStartsWith mime_type "audio/" = true →
      determine_media_type mime_type = .audio) ∧
    (strStartsWith mime_type "image/" = false →
      strStartsWith mime_type "video/" = false →
      strStartsWith mime_type "audio/" = false →
      determine_media_type mime_type = .document) ∧
    determine_media_type "application/pdf" = .document ∧
    determine_media_type "text/plain" = .document := by
  refine ⟨?_, ?_, ?_, ?_, by decide, by decide⟩
  · intro h; simp [determine_media_type, h]
  · intro h
    have hi := strStartsWith_false_of_other mime_type "video/" "image/" (by decide) (by decide) h
    simp [determine_media_type, h, hi]
  · intro h
    have hi := strStartsWith_false_of_other mime_type "audio/" "image/" (by decide) (by decide) h
    have hv := strStartsWith_false_of_other mime_type "audio/" "video/" (by decide) (by decide) h
    simp [determine_media_type, h, hi, hv]
  · intro h1 h2 h3; simp [determine_media_type, h1, h2, h3]

theorem media_type_from_mime_family_witness :
    determine_media_type "image/jpeg" = .image ∧
    determine_media_type "video/mp4" = .video ∧
    determine_media_type "audio/ogg" = .audio ∧
    determine_media_type "application/pdf" = .document :=
  ⟨(media_type_from_mime_family "image/jpeg").1 (by decide),
   (media_type_from_mime_family "video/mp4").2.1 (by decide),
   (media_type_from_mime_family "audio/ogg").2.2.1 (by decide),
   (media_type_from_mime_family "application/pdf").2.2.2.2.1⟩

theorem is_valid_file_eq_false (content : List Nat) (mime_type : String) :
    is_valid_file content mime_type = false ↔
      (content.length = 0 ∨ content.length > MAX_FILE_SIZE ∨
       mime_type ∉ ALLOWED_MIME_TYPES) := by
  unfold is_valid_file
  by_cases h1 : content.length = 0 ∨ content.length > MAX_FILE_SIZE
  · rw [if_pos h1]
    exact iff_of_true rfl (by tauto)
  · rw [if_neg h1]
    by_cases h2 : mime_type ∉ ALLOWED_MIME_TYPES
    · rw [if_pos h2]
      exact iff_of_true rfl (Or.inr (Or.inr h2))
    · rw [if_neg h2]
      refine iff_of_false (by simp) ?_
      rintro (h | h | h)
      · exact h1 (Or.inl h)
      · exact h1 (Or.inr h)
      · exact h2 h

theorem add_media_attachment_invalid (st : ServiceState) (complaint_id : Nat)
    (filename : String) (content : List Nat) (mime_type : String)
    (tok : String) (insertOk unlinkOk : Bool) (now : Nat)
    (h : is_valid_file content mime_type = false) :
    add_media_attachment st complaint_id filename content mime_type
        tok insertOk unlinkOk now = (.ok none, st, [.validated]) := by
  unfold add_media_attachment
  rw [if_pos (by simp [h])]

theorem add_media_attachment_no_complaint (st : ServiceState) (complaint_id : Nat)
    (filename : String) (content : List Nat) (mime_type : String)
    (tok : String) (insertOk unlinkOk : Bool) (now : Nat)
    (hvalid : is_valid_file content mime_type = true)
    (hfind : st.complaints.find? (fun c => decide (c.id = complaint_id)) = none) :
    add_media_attachment st complaint_id filename content mime_type
        tok insertOk unlinkOk now = (.ok none, st, [.validated, .lookedUp]) := by
  unfold add_media_attachment
  rw [if_neg (by simp [hvalid]), hfind]

theorem add_media_attachment_accepted (st : ServiceState) (complaint_id : Nat)
    (filename : String) (content : List Nat) (mime_type : String)
    (tok : String) (unlinkOk : Bool) (now : Nat) (c0 : Complaint)
    (hvalid : is_valid_file content mime_type = true)
    (hfind : st.complaints.find? (fun c => decide (c.id = complaint_id)) = some c0) :
    add_media_attachment st complaint_id filename content mime_type
        tok true unlinkOk now =
      (.ok (some (attachmentRecord st complaint_id filename content mime_type tok now)),
       { complaints := st.complaints
         attachments := st.attachments ++
           [attachmentRecord st complaint_id filename content mime_type tok now]
         files := st.files ++ [(save_file_path complaint_id filename tok, content)] },
       [.validated, .lookedUp, .wroteFile, .insertedRow]) := by
  unfold add_media_attachment
  rw [if_neg (by simp [hvalid]), hfind]
  rfl

theorem add_media_attachment_insert_fails (st : ServiceState) (complaint_id : Nat)
    (filename : String) (content : List Nat) (mime_type : String)
    (tok : String) (unlinkOk : Bool) (now : Nat) (c0 : Complaint)
    (hvalid : is_valid_file content mime_type = true)
    (hfind : st.complaints.find? (fun c => decide (c.id = complaint_id)) = some c0) :
    add_media_attachment st complaint_id filename content mime_type
        tok false unlinkOk now =
      (.error "attachment row insert failed",
       if unlinkOk then
         { complaints := st.complaints
           attachments := st.attachments
           files := (st.files ++ [(save_file_path complaint_id filename tok, content)]).filter
             (fun f => decide (f.1 ≠ save_file_path complaint_id filename tok)) }
       else
         { complaints := st.complaints
           attachments := st.attachments
           files := st.files ++ [(save_file_path complaint_id filename tok, content)] },
       [.validated, .lookedUp, .wroteFile, .unlinkTried]) := by
  unfold add_media_attachment
  rw [if_neg (by simp [hvalid]), hfind]
  cases unlinkOk <;> simp

/-- C1: with the infrastructure healthy (`insertOk = true`), a call of
`add_media_attachment` returns `None` — instead of raising — exactly when
the content is empty, or strictly larger than 50·1024·1024 bytes, or the
declared MIME type is outside the twelve-entry allow-list, or no stored
complaint carries the given id.  In particular content of exactly
50·1024·1024 bytes passes the size check and one more byte fails it. -/
theorem add_media_attachment_none_iff (st : ServiceState) (complaint_id : Nat)
    (filename : String) (content : List Nat) (mime_type : String)
    (tok : String) (unlinkOk : Bool) (now : Nat) :
    (add_media_attachment st complaint_id filename content mime_type
        tok true unlinkOk now).1 = .ok none ↔
      (content.length = 0 ∨ content.length > 50 * 1024 * 1024 ∨
       mime_type ∉ ALLOWED_MIME_TYPES ∨
       ∀ c ∈ st.complaints, c.id ≠ complaint_id) := by
  by_cases hv : is_valid_file content mime_type
  · cases hfind : st.complaints.find? (fun c => decide (c.id = complaint_id)) with
    | none =>
        rw [add_media_attachment_no_complaint st complaint_id filename content
          mime_type tok true unlinkOk now hv hfind]
        refine iff_of_true rfl (Or.inr (Or.inr (Or.inr ?_)))
        intro c hc
        simpa using List.find?_eq_none.mp hfind c hc
    | some c0 =>
        rw [add_media_attachment_accepted st complaint_id filename content
          mime_type tok unlinkOk now c0 hv hfind]
        refine iff_of_false (by simp) ?_
        rintro (h | h | h | h)
        · rw [(is_valid_file_eq_false content mime_type).mpr (Or.inl h)] at hv
          exact absurd hv (by simp)
        · rw [(is_valid_file_eq_false content mime_type).mpr (Or.inr (Or.inl h))] at hv
          exact absurd hv (by simp)
        · rw [(is_valid_file_eq_false content mime_type).mpr (Or.inr (Or.inr h))] at hv
          exact absurd hv (by simp)
        · have hc0 : c0 ∈ st.complaints := List.mem_of_find?_eq_some hfind
          have hid : c0.id = complaint_id := by simpa using List.find?_some hfind
          exact h c0 hc0 hid
  · rw [Bool.not_eq_true] at hv
    rw [add_media_attachment_invalid st complaint_id filename content
      mime_type tok true unlinkOk now hv]
    refine iff_of_true rfl ?_
    rcases (is_valid_file_eq_false content mime_type).mp hv with h | h | h
    · exact Or.inl h
    · exact Or.inr (Or.inl h)
    · exact Or.inr (Or.inr (Or.inl h))

theorem add_media_attachment_none_iff_witness :
    (add_media_attachment ⟨[], [], []⟩ 1 "a.jpg" [] "image/jpeg"
        "t" true true 0).1 = .ok none :=
  (add_media_attachment_none_iff ⟨[], [], []⟩ 1 "a.jpg" [] "image/jpeg"
    "t" true 0).mpr (Or.inl rfl)

/-- A one-complaint service state used by the concrete instantiations. -/
def sampleState : ServiceState := ⟨[sampleComplaint1], [], []⟩

/-- C2: when the file has been written and the attachment-row insert then
fails, the service attempts to unlink the just-written file (the trace
records the write and the unlink attempt); the unlink removes the file
when it succeeds and leaves it when it itself fails, and in either case
the failure surfaced to the caller is the original insert failure — the
cleanup failure is swallowed, never substituted. -/
theorem add_media_attachment_insert_failure_cleanup (st : ServiceState)
    (complaint_id : Nat) (filename : String) (content : List Nat)
    (mime_type : String) (tok : String) (unlinkOk : Bool) (now : Nat)
    (c0 : Complaint)
    (hvalid : is_valid_file content mime_type = true)
    (hfind : st.complaints.find? (fun c => decide (c.id = complaint_id)) = some c0) :
    (add_media_attachment st complaint_id filename content mime_type
        tok false unlinkOk now).1 = .error "attachment row insert failed" ∧
    Ev.wroteFile ∈ (add_media_attachment st complaint_id filename content mime_type
        tok false unlinkOk now).2.2 ∧
    Ev.unlinkTried ∈ (add_media_attachment st complaint_id filename content mime_type
        tok false unlinkOk now).2.2 ∧
    (unlinkOk = true → ∀ entry ∈ (add_media_attachment st complaint_id filename
        content mime_type tok false unlinkOk now).2.1.files,
        entry.1 ≠ save_file_path complaint_id filename tok) ∧
    (unlinkOk = false → (save_file_path complaint_id filename tok, content) ∈
        (add_media_attachment st complaint_id filename content mime_type
          tok false unlinkOk now).2.1.files) := by
  rw [add_media_attachment_insert_fails st complaint_id filename content
    mime_type tok unlinkOk now c0 hvalid hfind]
  refine ⟨rfl, by simp, by simp, ?_, ?_⟩
  · intro h entry hentry
    rw [if_pos h] at hentry
    simp only [List.mem_filter, decide_eq_true_eq] at hentry
    exact hentry.2
  · intro h
    rw [if_neg (by simp [h])]
    simp

theorem add_media_attachment_insert_failure_cleanup_witness :
    (add_media_attachment sampleState 1 "a.jpg" [7] "image/jpeg"
        "t" false false 0).1 = .error "attachment row insert failed" ∧
    Ev.wroteFile ∈ (add_media_attachment sampleState 1 "a.jpg" [7] "image/jpeg"
        "t" false false 0).2.2 ∧
    Ev.unlinkTried ∈ (add_media_attachment sampleState 1 "a.jpg" [7] "image/jpeg"
        "t" false false 0).2.2 ∧
    (false = true → ∀ entry ∈ (add_media_attachment sampleState 1 "a.jpg" [7]
        "image/jpeg" "t" false false 0).2.1.files,
        entry.1 ≠ save_file_path 1 "a.jpg" "t") ∧
    (false = false → (save_file_path 1 "a.jpg" "t", [7]) ∈
        (add_media_attachment sampleState 1 "a.jpg" [7] "image/jpeg"
          "t" false false 0).2.1.files) :=
  add_media_attachment_insert_failure_cleanup sampleState 1 "a.jpg" [7]
    "image/jpeg" "t" false 0 sampleComplaint1 (by decide) (by decide)

/-- C10: whenever `add_media_attachment` answers `None`, it had no side
effects — the state (complaint rows, attachment rows, stored files) is
exactly the state before the call, and the trace records neither a file
write nor a row insert nor an unlink; moreover when the content/MIME
validation fails, the trace is just the validation step, so the store was
never consulted for the complaint. -/
theorem add_media_attachment_none_frame (st : ServiceState) (complaint_id : Nat)
    (filename : String) (content : List Nat) (mime_type : String)
    (tok : String) (insertOk unlinkOk : Bool) (now : Nat)
    (h : (add_media_attachment st complaint_id filename content mime_type
        tok insertOk unlinkOk now).1 = .ok none) :
    (add_media_attachment st complaint_id filename content mime_type
        tok insertOk unlinkOk now).2.1 = st ∧
    Ev.wroteFile ∉ (add_media_attachment st complaint_id filename content
        mime_type tok insertOk unlinkOk now).2.2 ∧
    Ev.insertedRow ∉ (add_media_attachment st complaint_id filename content
        mime_type tok insertOk unlinkOk now).2.2 ∧
    Ev.unlinkTried ∉ (add_media_attachment st complaint_id filename content
        mime_type tok insertOk unlinkOk now).2.2 ∧
    (is_valid_file content mime_type = false →
      (add_media_attachment st complaint_id filename content mime_type
        tok insertOk unlinkOk now).2.2 = [.validated]) := by
  by_cases hv : is_valid_file content mime_type
  · cases hfind : st.complaints.find? (fun c => decide (c.id = complaint_id)) with
    | none =>
        rw [add_media_attachment_no_complaint st complaint_id filename content
          mime_type tok insertOk unlinkOk now hv hfind]
        refine ⟨rfl, by simp, by simp, by simp, ?_⟩
        intro hfalse
        rw [hfalse] at hv
        exact absurd hv (by simp)
    | some c0 =>
        cases insertOk with
        | true =>
            rw [add_media_attachment_accepted st complaint_id filename content
              mime_type tok unlinkOk now c0 hv hfind] at h
            exact absurd h (by simp)
        | false =>
            rw [add_media_attachment_insert_fails st complaint_id filename content
              mime_type tok unlinkOk now c0 hv hfind] at h
            exact absurd h (by simp)
  · rw [Bool.not_eq_true] at hv
    rw [add_media_attachment_invalid st complaint_id filename content
      mime_type tok insertOk unlinkOk now hv]
    exact ⟨rfl, by simp, by simp, by simp, fun _ => rfl⟩

theorem add_media_attachment_none_frame_witness :
    (add_media_attachment sampleState 1 "a.jpg" [7] "bad/mime"
        "t" true true 0).2.1 = sampleState ∧
    Ev.wroteFile ∉ (add_media_attachment sampleState 1 "a.jpg" [7] "bad/mime"
        "t" true true 0).2.2 ∧
    Ev.insertedRow ∉ (add_media_attachment sampleState 1 "a.jpg" [7] "bad/mime"
        "t" true true 0).2.2 ∧
    Ev.unlinkTried ∉ (add_media_attachment sampleState 1 "a.jpg" [7] "bad/mime"
        "t" true true 0).2.2 ∧
    (is_valid_file [7] "bad/mime" = false →
      (add_media_attachment sampleState 1 "a.jpg" [7] "bad/mime"
        "t" true true 0).2.2 = [.validated]) :=
  add_media_attachment_none_frame sampleState 1 "a.jpg" [7] "bad/mime"
    "t" true true 0 (by rfl)

/-! ## Read queries (`get_complaint_by_tracking_id`, `get_complaint_statistics`,
`search_complaints`) -/

/-- The `ComplaintPublic` projection the read queries build (lines
179-186): exactly the six public fields of the row. -/
def complaintPublicOf (c : Complaint) : ComplaintPublic := {
  tracking_id := c.tracking_id
  title := c.title
  category := c.category
  status := c.status
  created_at := c.created_at
  updated_at := c.updated_at }

/-- `ComplaintService.get_complaint_by_tracking_id`: first row whose
tracking code is exactly the query, projected; `None` when there is no
such row. -/
def get_complaint_by_tracking_id (db : List Complaint) (tracking_id : String) :
    Option ComplaintPublic :=
  match db.find? (fun c => decide (c.tracking_id = tracking_id)) with
  | none => none
  | some c => some (complaintPublicOf c)

/-- C6: `get_complaint_by_tracking_id` answers `None` exactly when no
stored complaint carries the queried code; otherwise it answers the
public projection of a stored row with that code, whose tracking code
equals the query — and the projection is built from the six public
fields alone (tracking code, title, category, status and the two
timestamps), so descriptions, contact data, officer data and the
submitting address never appear: two rows agreeing on the six public
fields project identically. -/
theorem get_by_tracking_code_spec (db : List Complaint) (code : String) :
    (get_complaint_by_tracking_id db code = none ↔
      ∀ c ∈ db, c.tracking_id ≠ code) ∧
    (∀ p, get_complaint_by_tracking_id db code = some p →
      p.tracking_id = code ∧
      ∃ c ∈ db, c.tracking_id = code ∧ p = complaintPublicOf c) ∧
    (∀ c1 c2 : Complaint, c1.tracking_id = c2.tracking_id → c1.title = c2.title →
      c1.category = c2.category → c1.status = c2.status →
      c1.created_at = c2.created_at → c1.updated_at = c2.updated_at →
      complaintPublicOf c1 = complaintPublicOf c2) := by
  refine ⟨?_, ?_, ?_⟩
  · cases hfind : db.find? (fun c => decide (c.tracking_id = code)) with
    | none =>
        refine iff_of_true (by rw [get_complaint_by_tracking_id, hfind]) ?_
        intro c hc
        simpa using List.find?_eq_none.mp hfind c hc
    | some c0 =>
        refine iff_of_false (by simp [get_complaint_by_tracking_id, hfind]) ?_
        intro hall
        exact hall c0 (List.mem_of_find?_eq_some hfind)
          (by simpa using List.find?_some hfind)
  · intro p hp
    cases hfind : db.find? (fun c => decide (c.tracking_id = code)) with
    | none => rw [get_complaint_by_tracking_id, hfind] at hp; exact absurd hp (by simp)
    | some c0 =>
        rw [get_complaint_by_tracking_id, hfind] at hp
        have hid : c0.tracking_id = code := by simpa using List.find?_some hfind
        obtain rfl := Option.some.inj hp
        exact ⟨hid, c0, List.mem_of_find?_eq_some hfind, hid, rfl⟩
  · intro c1 c2 h1 h2 h3 h4 h5 h6
    simp [complaintPublicOf, h1, h2, h3, h4, h5, h6]

theorem get_by_tracking_code_spec_witness :
    (complaintPublicOf sampleComplaint1).tracking_id = "PC-00000000" ∧
    ∃ c ∈ [sampleComplaint1], c.tracking_id = "PC-00000000" ∧
      complaintPublicOf sampleComplaint1 = complaintPublicOf c :=
  (get_by_tracking_code_spec [sampleComplaint1] "PC-00000000").2.1
    (complaintPublicOf sampleComplaint1) (by rfl)

/-- The shape of the statistics dict built by
`ComplaintService.get_complaint_statistics`; the per-category dict is the
list of `(category.value, count)` entries in Python enum iteration
order. -/
structure ComplaintStatsResult where
  total_complaints : Nat
  pending_complaints : Nat
  resolved_complaints : Nat
  categories : List (String × Nat)
deriving DecidableEq, Repr

/-- `ComplaintService.get_complaint_statistics`: full-scan counts at call
time. -/
def get_complaint_statistics (db : List Complaint) : ComplaintStatsResult := {
  total_complaints := db.length
  pending_complaints := (db.filter (fun c => decide (c.status = .pending))).length
  resolved_complaints := (db.filter (fun c => decide (c.status = .resolved))).length
  categories := ComplaintCategory.all.map
    (fun cat => (cat.value, (db.filter (fun c => decide (c.category = cat))).length)) }

/-- The store obtained by creating two `misconduct` complaints and one
`harassment` complaint in sequence through `create_complaint`. -/
def statsScenarioDb : List Complaint :=
  match create_complaint (fun _ => 0) 1 []
      { sampleDraft with category := .misconduct } none 0 with
  | none => []
  | some (_, _, db1) =>
    match create_complaint (fun _ => 16 ^ 24) 1 db1
        { sampleDraft with category := .misconduct } none 1 with
    | none => db1
    | some (_, _, db2) =>
      match create_complaint (fun _ => 2 * 16 ^ 24) 1 db2
          { sampleDraft with category := .harassment } none 2 with
      | none => db2
      | some (_, _, db3) => db3

/-- C8: the statistics are the total row count, the count of `pending`
rows, the count of `resolved` rows, and a per-category map holding an
entry for every member of the category enum (zero-count categories
included); after creating exactly 2 misconduct and 1 harassment
complaint the result reads total 3, misconduct 2, harassment 1,
other 0. -/
theorem get_complaint_statistics_spec (db : List Complaint) :
    (get_complaint_statistics db).total_complaints = db.length ∧
    (get_complaint_statistics db).pending_complaints
      = db.countP (fun c => decide (c.status = .pending)) ∧
    (get_complaint_statistics db).resolved_complaints
      = db.countP (fun c => decide (c.status = .resolved)) ∧
    (∀ cat : ComplaintCategory,
      (cat.value, db.countP (fun c => decide (c.category = cat)))
        ∈ (get_complaint_statistics db).categories) ∧
    (get_complaint_statistics statsScenarioDb).total_complaints = 3 ∧
    ("misconduct", 2) ∈ (get_complaint_statistics statsScenarioDb).categories ∧
    ("harassment", 1) ∈ (get_complaint_statistics statsScenarioDb).categories ∧
    ("other", 0) ∈ (get_complaint_statistics statsScenarioDb).categories := by
  refine ⟨rfl, ?_, ?_, ?_, by decide, by decide, by decide, by decide⟩
  · simp [get_complaint_statistics, List.countP_eq_length_filter]
  · simp [get_complaint_statistics, List.countP_eq_length_filter]
  · intro cat
    cases cat <;>
      simp [get_complaint_statistics, ComplaintCategory.all,
        ComplaintCategory.value, List.countP_eq_length_filter]

/-- Python `str.upper` (ASCII), at the character-list level. -/
def strToUpper (s : String) : String :=
  String.mk (s.toList.map Char.toUpper)

/-- SQL `LIKE` pattern matching, as the store evaluates
`func.upper(Complaint.tracking_id).like(pattern)` in `search_complaints`
(line 248): `%` matches any run of characters, `_` any single character,
every other pattern character itself. -/
def likeMatch : List Char → List Char → Bool
  | [], s => s.isEmpty
  | p :: ps, s =>
    if p = '%' then s.tails.any (fun s2 => likeMatch ps s2)
    else
      match s with
      | [] => false
      | c :: s2 => (p == '_' || p == c) && likeMatch ps s2

/-- Substring containment, stated from the words of the spec: the needle
occurs contiguously somewhere in the haystack. -/
def containsSub (needle hay : List Char) : Bool :=
  hay.tails.any (fun t => needle.isPrefixOf t)

/-- Insertion into a newest-first (non-increasing `created_at`) list. -/
def insertDesc (c : Complaint) : List Complaint → List Complaint
  | [] => [c]
  | d :: ds => if d.created_at ≤ c.created_at then c :: d :: ds else d :: insertDesc c ds

/-- The `ORDER BY created_at DESC` of the read queries, as an insertion
sort (which row the store puts first among equal timestamps is not
specified). -/
def sortDesc : List Complaint → List Complaint
  | [] => []
  | c :: cs => insertDesc c (sortDesc cs)

/-- The row predicate accumulated by the `where` clauses of
`search_complaints` (lines 241-248).  Python truthiness makes the empty
tracking substring skip its clause (every category/status enum member is
a non-empty string, hence truthy). -/
def searchRowMatches (category : Option ComplaintCategory)
    (status : Option ComplaintStatus) (tracking_id : Option String)
    (c : Complaint) : Bool :=
  (match category with
   | none => true
   | some cat => decide (c.category = cat)) &&
  (match status with
   | none => true
   | some st => decide (c.status = st)) &&
  (match tracking_id with
   | none => true
   | some t =>
     if t = "" then true
     else likeMatch ('%' :: ((strToUpper t).toList ++ ['%']))
       (strToUpper c.tracking_id).toList)

/-- `ComplaintService.search_complaints`: conjunctive optional filters,
newest-first ordering, hard limit 50, public projection. -/
def search_complaints (db : List Complaint) (category : Option ComplaintCategory)
    (status : Option ComplaintStatus) (tracking_id : Option String) :
    List ComplaintPublic :=
  ((sortDesc (db.filter (searchRowMatches category status tracking_id))).take 50).map
    complaintPublicOf

theorem mem_insertDesc (b c : Complaint) (l : List Complaint) :
    b ∈ insertDesc c l ↔ b = c ∨ b ∈ l := by
  induction l with
  | nil => simp [insertDesc]
  | cons d ds ih =>
      by_cases h : d.created_at ≤ c.created_at
      · rw [insertDesc, if_pos h]
        simp
      · rw [insertDesc, if_neg h]
        simp only [List.mem_cons, ih]
        tauto

theorem mem_sortDesc (b : Complaint) (l : List Complaint) :
    b ∈ sortDesc l ↔ b ∈ l := by
  induction l with
  | nil => simp [sortDesc]
  | cons c cs ih => rw [sortDesc, mem_insertDesc]; simp [ih]

theorem pairwise_insertDesc (c : Complaint) (l : List Complaint)
    (h : List.Pairwise (fun a b => b.created_at ≤ a.created_at) l) :
    List.Pairwise (fun a b => b.created_at ≤ a.created_at) (insertDesc c l) := by
  induction l with
  | nil => simp [insertDesc]
  | cons d ds ih =>
      rw [List.pairwise_cons] at h
      by_cases hcd : d.created_at ≤ c.created_at
      · rw [insertDesc, if_pos hcd]
        refine List.pairwise_cons.mpr ⟨?_, List.pairwise_cons.mpr h⟩
        intro b hb
        rcases List.mem_cons.mp hb with rfl | hb
        · exact hcd
        · exact le_trans (h.1 b hb) hcd
      · rw [insertDesc, if_neg hcd]
        refine List.pairwise_cons.mpr ⟨?_, ih h.2⟩
        intro b hb
        rcases (mem_insertDesc b c ds).mp hb with rfl | hb
        · exact le_of_lt (lt_of_not_le hcd)
        · exact h.1 b hb

theorem pairwise_sortDesc (l : List Complaint) :
    List.Pairwise (fun a b => b.created_at ≤ a.created_at) (sortDesc l) := by
  induction l with
  | nil => simp [sortDesc]
  | cons c cs ih => exact pairwise_insertDesc c (sortDesc cs) ih

theorem list_any_congr {α : Type} (l : List α) (f g : α → Bool)
    (h : ∀ x ∈ l, f x = g x) : l.any f = l.any g := by
  induction l with
  | nil => rfl
  | cons a as ih =>
      simp only [List.any_cons, h a (List.mem_cons_self a as)]
      rw [ih (fun x hx => h x (List.mem_cons_of_mem a hx))]

theorem tails_any_isEmpty (s : List Char) :
    s.tails.any (fun t => t.isEmpty) = true := by
  induction s with
  | nil => rfl
  | cons c cs ih => rw [List.tails_cons]; simp [ih]

theorem likeMatch_nil (s : List Char) : likeMatch [] s = s.isEmpty := by
  cases s <;> rfl

theorem likeMatch_wild (ps : List Char) (s : List Char) :
    likeMatch ('%' :: ps) s = s.tails.any (fun s2 => likeMatch ps s2) := by
  cases s <;> simp [likeMatch]

theorem likeMatch_char (p : Char) (hp : p ≠ '%') (ps : List Char) :
    (likeMatch (p :: ps) [] = false) ∧
    (∀ c s2, likeMatch (p :: ps) (c :: s2)
      = ((p == '_' || p == c) && likeMatch ps s2)) := by
  constructor
  · simp [likeMatch, hp]
  · intro c s2
    simp [likeMatch, hp]

theorem nil_isPrefixOf (s : List Char) : ([] : List Char).isPrefixOf s = true := by
  cases s <;> rfl

theorem likeMatch_plain (p : List Char) (hw : ∀ c ∈ p, c ≠ '%' ∧ c ≠ '_') :
    ∀ s : List Char, likeMatch (p ++ ['%']) s = p.isPrefixOf s := by
  induction p with
  | nil =>
      intro s
      simp only [List.nil_append]
      rw [likeMatch_wild]
      have heq : s.tails.any (fun s2 => likeMatch [] s2)
          = s.tails.any (fun t => t.isEmpty) :=
        list_any_congr _ _ _ (fun x _ => likeMatch_nil x)
      rw [heq, tails_any_isEmpty, nil_isPrefixOf]
  | cons a p ih =>
      intro s
      have ha := hw a (List.mem_cons_self a p)
      have hw2 : ∀ c ∈ p, c ≠ '%' ∧ c ≠ '_' :=
        fun c hc => hw c (List.mem_cons_of_mem a hc)
      rw [List.cons_append]
      cases s with
      | nil =>
          rw [(likeMatch_char a ha.1 (p ++ ['%'])).1]
          rfl
      | cons c s2 =>
          rw [(likeMatch_char a ha.1 (p ++ ['%'])).2 c s2]
          have hau : (a == '_') = false := beq_eq_false_iff_ne.mpr ha.2
          simp only [hau, Bool.false_or, ih hw2 s2, List.isPrefixOf]

theorem likeMatch_contains (p : List Char) (hw : ∀ c ∈ p, c ≠ '%' ∧ c ≠ '_')
    (s : List Char) :
    likeMatch ('%' :: (p ++ ['%'])) s = containsSub p s := by
  rw [likeMatch_wild, containsSub]
  exact list_any_congr _ _ _ (fun t _ => likeMatch_plain p hw t)

theorem containsSub_nil_needle (s : List Char) : containsSub [] s = true := by
  cases s with
  | nil => rfl
  | cons c cs => simp [containsSub, List.tails_cons, nil_isPrefixOf]

/-- C7 does not hold as stated: the tracking filter reaches the store as
an unescaped SQL `LIKE` pattern, so a query containing the `LIKE`
wildcard `_` matches codes in which it is not a substring.  Concretely,
searching with tracking substring `"_"` returns the stored complaint with
code `PC-00000000`, yet `"_"` is not contained in that code. -/
theorem search_complaints_wildcard_counterexample :
    search_complaints [sampleComplaint1] none none (some "_")
        = [complaintPublicOf sampleComplaint1] ∧
    containsSub (strToUpper "_").toList
        (strToUpper sampleComplaint1.tracking_id).toList = false := by
  constructor <;> decide

/-- C7 amended: for every combination of the optional filters — with the
tracking substring free of the SQL `LIKE` wildcard characters `%` and
`_`, which the source passes through unescaped — `search_complaints`
returns only complaints satisfying every supplied filter conjunctively,
tracking-code matching being case-insensitive substring containment; the
result is ordered newest-first by creation timestamp and holds at most
50 entries. -/
theorem search_complaints_spec (db : List Complaint)
    (category : Option ComplaintCategory) (status : Option ComplaintStatus)
    (tracking_id : Option String)
    (hw : ∀ ch ∈ (strToUpper (tracking_id.getD "")).toList, ch ≠ '%' ∧ ch ≠ '_') :
    (∀ p ∈ search_complaints db category status tracking_id,
      ∃ c ∈ db, p = complaintPublicOf c ∧
        (∀ cat, category = some cat → c.category = cat) ∧
        (∀ st, status = some st → c.status = st) ∧
        (∀ t, tracking_id = some t →
          containsSub (strToUpper t).toList
            (strToUpper c.tracking_id).toList = true)) ∧
    (search_complaints db category status tracking_id).length ≤ 50 ∧
    List.Pairwise (fun a b => b.created_at ≤ a.created_at)
      (search_complaints db category status tracking_id) := by
  refine ⟨?_, ?_, ?_⟩
  · intro p hp
    unfold search_complaints at hp
    rcases List.mem_map.mp hp with ⟨c, hctake, rfl⟩
    have hcsort := List.mem_of_mem_take hctake
    have hcfilter := (mem_sortDesc c _).mp hcsort
    have hcmem := List.mem_filter.mp hcfilter
    refine ⟨c, hcmem.1, rfl, ?_, ?_, ?_⟩
    · intro cat hcat
      subst hcat
      have h1 := (Bool.and_eq_true _ _).mp ((Bool.and_eq_true _ _).mp hcmem.2).1
      exact of_decide_eq_true h1.1
    · intro st hst
      subst hst
      have h1 := (Bool.and_eq_true _ _).mp ((Bool.and_eq_true _ _).mp hcmem.2).1
      exact of_decide_eq_true h1.2
    · intro t ht
      subst ht
      have h2 := ((Bool.and_eq_true _ _).mp hcmem.2).2
      have h2' : (if t = "" then true
          else likeMatch ('%' :: ((strToUpper t).toList ++ ['%']))
            (strToUpper c.tracking_id).toList) = true := h2
      by_cases hte : t = ""
      · subst hte
        exact containsSub_nil_needle _
      · rw [if_neg hte] at h2'
        rw [← likeMatch_contains (strToUpper t).toList (by simpa using hw)]
        exact h2'
  · unfold search_complaints
    rw [List.length_map, List.length_take]
    exact min_le_left _ _
  · unfold search_complaints
    refine List.pairwise_map.mpr ?_
    exact List.Pairwise.sublist (List.take_sublist 50 _) (pairwise_sortDesc _)

theorem search_complaints_spec_witness :
    (∀ p ∈ search_complaints [sampleComplaint1] (some .misconduct) none (some "c-0"),
      ∃ c ∈ [sampleComplaint1], p = complaintPublicOf c ∧
        (∀ cat, (some ComplaintCategory.misconduct : Option ComplaintCategory)
            = some cat → c.category = cat) ∧
        (∀ st, (none : Option ComplaintStatus) = some st → c.status = st) ∧
        (∀ t, (some "c-0" : Option String) = some t →
          containsSub (strToUpper t).toList
            (strToUpper c.tracking_id).toList = true)) ∧
    (search_complaints [sampleComplaint1] (some .misconduct) none
        (some "c-0")).length ≤ 50 ∧
    List.Pairwise (fun a b => b.created_at ≤ a.created_at)
      (search_complaints [sampleComplaint1] (some .misconduct) none (some "c-0")) :=
  search_complaints_spec [sampleComplaint1] (some .misconduct) none
    (some "c-0") (by decide)
